import Mathlib

set_option maxHeartbeats 1600000
set_option maxRecDepth 8000

/-
Shallow embedding of the CHIP-8 interpreter in `src/main.rs`.

Modelling conventions:
* Machine integers (`u8`, `u16`) are `Nat` with an explicit reduction
  mod 256 / mod 65536 at exactly the points where the Rust code performs
  machine (release-mode, wrapping) arithmetic or an `as` cast.
* The byte array `memory: [u8; 4096]` and the register bank
  `registers: [u8; 16]` are total functions `Nat → Nat`; every value the
  interpreter stores in them is < 256.  (An out-of-bounds array index in
  Rust aborts; none of the states examined below reaches one.)
* A Rust panic that the interpreter itself can trigger - indexing
  `stack[len - 1]` of an empty `Vec`, `Option::unwrap` on `None`,
  `gen_range` on an empty range - is modelled by returning `none`.
* The `current_op` hex string built in `update` is exactly the four
  nibbles of the two fetched bytes (high nibble of `memory[pc]`, low
  nibble of `memory[pc]`, high nibble of `memory[pc+1]`, low nibble of
  `memory[pc+1]`), and `hex_char_to_u16` maps each hex character back to
  its 4-bit value; the embedding therefore works directly with the four
  nibble values `n0 n1 n2 n3`.
* Rust's `chars[2..3]` is a ONE-element slice (just `chars[2]`): the
  embedding keeps this faithfully as the one-element list `[n2]`, matched
  against the two-element patterns of the source.
-/

/-- mirrors `const SUPER_CHIP: bool = true;` (compile-time quirk toggle). -/
def SUPER_CHIP : Bool := true

/-- mirrors `fn get_bit(value: &u8, position: &u8) -> bool`, i.e.
`value & (1 << (7 - position)) != 0`: bit `position` counted from the most
significant side (the interpreter only calls it with `position ≤ 7`). -/
def get_bit (value position : Nat) : Bool :=
  Nat.testBit value (7 - position)

/-- The 64x32 monochrome display, `pixels[row][col]`, modelled as a total
function; the interpreter only indexes rows 0..31 and columns 0..63. -/
structure FrameBuffer where
  pixels : Nat → Nat → Bool

/-- mirrors `FrameBuffer::clear`: every pixel false. -/
def FrameBuffer.clear (_fb : FrameBuffer) : FrameBuffer :=
  ⟨fun _ _ => false⟩

/-- one `self.pixels[y][x] ^= true` toggle. -/
def flipPixel (px : Nat → Nat → Bool) (y c : Nat) : Nat → Nat → Bool :=
  fun r c2 => if r = y ∧ c2 = c then !(px r c2) else px r c2

/-- The `for i in 0..8` loop of `FrameBuffer::set`; `fuel` iterations
remain (the real loop starts at `i = 0` with `fuel = 8`), and
`if x + i > 63 { break; }` stops at the right screen edge.  `vf` is the
`vf_flip` accumulator, set when a lit pixel is about to be toggled off. -/
def setLoop (x y value : Nat) :
    Nat → Nat → (Nat → Nat → Bool) → Bool → ((Nat → Nat → Bool) × Bool)
  | 0, _, px, vf => (px, vf)
  | fuel+1, i, px, vf =>
    if 63 < x + i then (px, vf)
    else if get_bit value i then
      setLoop x y value fuel (i+1) (flipPixel px y (x + i)) (vf || px y (x + i))
    else
      setLoop x y value fuel (i+1) px vf

/-- mirrors `FrameBuffer::set` (the spec's `drawByte`): XOR-draw the 8 bits
of `value` (most significant first) into row `y` starting at column `x`,
returning the updated buffer and the collision flag. -/
def FrameBuffer.set (fb : FrameBuffer) (x y value : Nat) : FrameBuffer × Bool :=
  let r := setLoop x y value 8 0 fb.pixels false
  (⟨r.1⟩, r.2)

/-- The machine state of `struct CHIP8` (the fields the interpreter's
semantics touch; `sp` is never used by the source, `current_op` is the
decoded nibble quadruple passed to `process_op`, and `last_instant` is
replaced by the elapsed-seconds argument of `update_timers`). -/
structure CHIP8 where
  registers : Nat → Nat
  memory : Nat → Nat
  stack : List Nat
  pc : Nat
  index_reg : Nat
  sound_timer : Nat
  delay_timer : Nat
  frame_buffer : FrameBuffer
  paused : Bool
  key_pressed : Bool
  last_key : Option Nat

/-- pointwise update of a `Nat`-indexed array model. -/
def updFun (f : Nat → Nat) (i v : Nat) : Nat → Nat :=
  fun j => if j = i then v else f j

/-- mirrors `get_character_sprite`. -/
def get_character_sprite (c : Char) : List Nat :=
  match c with
  | '0' => [0xF0, 0x90, 0x90, 0x90, 0xF0]
  | '1' => [0x20, 0x60, 0x20, 0x20, 0x70]
  | '2' => [0xF0, 0x10, 0xF0, 0x80, 0xF0]
  | '3' => [0xF0, 0x10, 0xF0, 0x10, 0xF0]
  | '4' => [0x90, 0x90, 0xF0, 0x10, 0x10]
  | '5' => [0xF0, 0x80, 0xF0, 0x10, 0xF0]
  | '6' => [0xF0, 0x80, 0xF0, 0x90, 0xF0]
  | '7' => [0xF0, 0x10, 0x20, 0x40, 0x40]
  | '8' => [0xF0, 0x90, 0xF0, 0x90, 0xF0]
  | '9' => [0xF0, 0x90, 0xF0, 0x10, 0xF0]
  | 'A' => [0xF0, 0x90, 0xF0, 0x90, 0x90]
  | 'B' => [0xE0, 0x90, 0xE0, 0x90, 0xE0]
  | 'C' => [0xF0, 0x80, 0x80, 0x80, 0xF0]
  | 'D' => [0xE0, 0x90, 0x90, 0x90, 0xE0]
  | 'E' => [0xF0, 0x80, 0xF0, 0x80, 0xF0]
  | 'F' => [0xF0, 0x80, 0xF0, 0x80, 0x80]
  | _ => [0, 0, 0, 0, 0]

/-- write a run of bytes at consecutive addresses (the `memory[i] = j;
i += 1;` loops of the two loaders). -/
def write_bytes (mem : Nat → Nat) (start : Nat) : List Nat → (Nat → Nat)
  | [] => mem
  | b :: rest => write_bytes (updFun mem start b) (start + 1) rest

/-- mirrors `load_font_into_memory`: the sprites of '0'..'9' then 'A'..'F',
five bytes each, written from address 0 upward. -/
def load_font_into_memory (mem : Nat → Nat) : Nat → Nat :=
  write_bytes mem 0
    (((['0', '1', '2', '3', '4', '5', '6', '7', '8', '9'] ++
       ['A', 'B', 'C', 'D', 'E', 'F']).map get_character_sprite).flatten)

/-- mirrors `load_program_into_memory`: program bytes from address 512. -/
def load_program_into_memory (mem : Nat → Nat) (program : List Nat) : Nat → Nat :=
  write_bytes mem 512 program

/-- mirrors `CHIP8::new`: note `stack: vec![0; 32]` - the stack is created
holding thirty-two zero entries, not merely with capacity 32. -/
def CHIP8.new (program : List Nat) : CHIP8 :=
  { registers := fun _ => 0
    memory := load_program_into_memory (load_font_into_memory (fun _ => 0)) program
    stack := List.replicate 32 0
    pc := 512
    index_reg := 0
    sound_timer := 0
    delay_timer := 0
    frame_buffer := ⟨fun _ _ => false⟩
    paused := false
    key_pressed := false
    last_key := none }

/-- mirrors `update_timers`.  `delta` is
`(self.last_instant.elapsed().as_secs() * 60) as u8`: whole elapsed
seconds times 60, truncated to a byte by the `as u8` cast.  The guard is
`255 - timer >= delta` (an addition-overflow check, not a
subtraction-underflow check), and the Rust `timer -= delta` in its branch
wraps mod 256 in a release build (a debug build would abort). -/
def CHIP8.update_timers (st : CHIP8) (elapsed_secs : Nat) : CHIP8 :=
  let delta := (elapsed_secs * 60) % 256
  { st with
    sound_timer :=
      if delta ≤ 255 - st.sound_timer then (st.sound_timer + 256 - delta) % 256 else 0
    delay_timer :=
      if delta ≤ 255 - st.delay_timer then (st.delay_timer + 256 - delta) % 256 else 0 }

/-- mirrors `return_from_subroutine`:
`self.pc = self.stack[self.stack.len() - 1]; self.stack.pop().unwrap();`.
On an empty stack the index `len - 1` underflows and Rust aborts -
modelled as `none`. -/
def return_from_subroutine (st : CHIP8) : Option CHIP8 :=
  match st.stack.getLast? with
  | none => none
  | some top => some { st with pc := top, stack := st.stack.dropLast }

/-- the `for i in 0..n` loop of the `DXYN` arm; `fuel` iterations remain.
`vf` is the `vf_flip` variable, which the source RE-ASSIGNS from each
row's `set` result (it does not accumulate across rows). -/
def drawSpriteLoop (mem : Nat → Nat) (idx x : Nat) :
    Nat → Nat → Nat → FrameBuffer → Bool → (FrameBuffer × Bool)
  | 0, _, _, fb, vf => (fb, vf)
  | fuel+1, i, y, fb, vf =>
    if 31 < y then (fb, vf)
    else
      let r := fb.set x y (mem ((idx + i) % 65536) % 256)
      drawSpriteLoop mem idx x fuel (i + 1) (y + 1) r.1 r.2

/-- the `for i in 0..=max` loop of `FX55`: registers 0..=max stored to
memory starting at the index register. -/
def store_regs_loop (regs : Nat → Nat) (idx : Nat) :
    Nat → Nat → (Nat → Nat) → (Nat → Nat)
  | 0, _, mem => mem
  | fuel+1, i, mem => store_regs_loop regs idx fuel (i+1) (updFun mem ((idx + i) % 65536) (regs i))

/-- the `for i in 0..=max` loop of `FX65`: registers 0..=max loaded from
memory starting at the index register. -/
def load_regs_loop (mem : Nat → Nat) (idx : Nat) :
    Nat → Nat → (Nat → Nat) → (Nat → Nat)
  | 0, _, regs => regs
  | fuel+1, i, regs => load_regs_loop mem idx fuel (i+1) (updFun regs i (mem ((idx + i) % 65536)))

/-- mirrors `process_op`.  `n0 n1 n2 n3` are the values of the four hex
characters of `current_op`; `elapsed_secs` feeds the `update_timers` call
at the end; `rnd` is the raw random draw consumed by `CXNN`.  The result
pairs each arm with the `inc` flag; afterwards `pc` is advanced by 2 when
`inc` is still true, `key_pressed` is cleared, and the timers tick -
exactly the tail of the source function.  `none` models a Rust abort. -/
def CHIP8.process_op (st : CHIP8) (n0 n1 n2 n3 elapsed_secs rnd : Nat) : Option CHIP8 :=
  let nn := n2 * 16 + n3
  let nnn := n1 * 256 + n2 * 16 + n3
  let arm : Option (CHIP8 × Bool) :=
    match n0 with
    | 0 =>
      if n2 = 0xE then
        match n3 with
        | 0 => some ({ st with frame_buffer := st.frame_buffer.clear }, true)
        | 0xE =>
          match return_from_subroutine st with
          | none => none
          | some st1 => some (st1, true)
        | _ => some (st, true)
      else some (st, true)
    | 1 => some ({ st with pc := nnn }, false)
    | 2 => some ({ st with stack := st.stack ++ [st.pc], pc := nnn }, true)
    | 3 =>
      some (if st.registers n1 = nn then { st with pc := (st.pc + 2) % 65536 } else st, true)
    | 4 =>
      some (if st.registers n1 ≠ nn then { st with pc := (st.pc + 2) % 65536 } else st, true)
    | 5 =>
      -- source line 273 compares `registers[chars[1]]` with itself
      some (if n3 = 0 ∧ st.registers n1 = st.registers n1
            then { st with pc := (st.pc + 2) % 65536 } else st, true)
    | 6 => some ({ st with registers := updFun st.registers n1 (nn % 256) }, true)
    | 7 =>
      some (if nn ≤ 255 - st.registers n1
            then { st with registers := updFun st.registers n1 (st.registers n1 + nn) }
            else { st with registers := updFun st.registers n1 255 }, true)
    | 8 =>
      match n3 with
      | 0 => some ({ st with registers := updFun st.registers n1 (st.registers n2) }, true)
      | 1 => some ({ st with registers := updFun st.registers n1 (Nat.lor (st.registers n1) (st.registers n2)) }, true)
      | 2 => some ({ st with registers := updFun st.registers n1 (Nat.land (st.registers n1) (st.registers n2)) }, true)
      | 3 => some ({ st with registers := updFun st.registers n1 (Nat.xor (st.registers n1) (st.registers n2)) }, true)
      | 4 =>
        some (if st.registers n2 ≤ 255 - st.registers n1
              then { st with registers := updFun (updFun st.registers n1 (st.registers n1 + st.registers n2)) 15 0 }
              else { st with registers := updFun (updFun st.registers n1 255) 15 1 }, true)
      | 5 =>
        some (if st.registers n2 < st.registers n1
              then { st with registers := updFun (updFun st.registers n1 (st.registers n1 - st.registers n2)) 15 1 }
              else { st with registers := updFun (updFun st.registers n1 0) 15 0 }, true)
      | 6 =>
        let st1 := if SUPER_CHIP
                   then { st with registers := updFun st.registers n1 (st.registers n2) }
                   else st
        let st2 := if get_bit (st1.registers n1) 7
                   then { st1 with registers := updFun st1.registers 15 1 }
                   else { st1 with registers := updFun st1.registers 15 0 }
        some ({ st2 with registers := updFun st2.registers n1 (st2.registers n1 / 2) }, true)
      | 7 =>
        some (if st.registers n1 < st.registers n2
              then { st with registers := updFun (updFun st.registers n1 (st.registers n2 - st.registers n1)) 15 1 }
              else { st with registers := updFun (updFun st.registers n1 0) 15 0 }, true)
      | 0xE =>
        let st1 := if SUPER_CHIP
                   then { st with registers := updFun st.registers n1 (st.registers n2) }
                   else st
        let st2 := if get_bit (st1.registers n1) 0
                   then { st1 with registers := updFun st1.registers 15 1 }
                   else { st1 with registers := updFun st1.registers 15 0 }
        some ({ st2 with registers := updFun st2.registers n1 (st2.registers n1 * 2 % 256) }, true)
      | _ => some (st, true)
    | 9 =>
      -- source line 370 compares `registers[chars[1]]` with itself
      some (if n3 = 0 ∧ st.registers n1 ≠ st.registers n1
            then { st with pc := (st.pc + 2) % 65536 } else st, true)
    | 0xA => some ({ st with index_reg := nnn }, true)
    | 0xB =>
      let reg := if SUPER_CHIP then n1 else 0
      some ({ st with pc := (nnn + st.registers reg) % 65536 }, false)
    | 0xC =>
      -- `gen_range(0..nn)` aborts on an empty range; otherwise the draw is
      -- some value below nn, masked by nn and cast to u8
      if nn = 0 then none
      else some ({ st with registers := updFun st.registers n1 (Nat.land (rnd % nn) nn % 256) }, true)
    | 0xD =>
      let x := st.registers n1 % 64
      let y := st.registers n2 % 32
      let r := drawSpriteLoop st.memory st.index_reg x n3 0 y st.frame_buffer false
      let st1 := { st with frame_buffer := r.1 }
      some ({ st1 with registers := updFun st1.registers 15 (if r.2 then 1 else 0) }, true)
    | 0xE =>
      -- `match chars[2..3]`: a ONE-element slice against two-element
      -- patterns - neither `['9','E']` nor `['A','1']` can ever match
      if st.key_pressed then
        match [n2] with
        | [9, 0xE] =>
          match st.last_key with
          | none => none
          | some k =>
            some (if st.registers n1 = k then { st with pc := (st.pc + 2) % 65536 } else st, true)
        | [0xA, 1] =>
          match st.last_key with
          | none => none
          | some k =>
            some (if st.registers n1 ≠ k then { st with pc := (st.pc + 2) % 65536 } else st, true)
        | _ => some (st, true)
      else some (st, true)
    | 0xF =>
      -- `match chars[2..3]`: again a one-element slice against two-element
      -- patterns, so every arm below is unreachable and `_ => {}` runs
      match [n2] with
      | [0, 7] => some ({ st with registers := updFun st.registers n1 st.delay_timer }, true)
      | [1, 5] => some ({ st with delay_timer := st.registers n1 }, true)
      | [1, 8] => some ({ st with sound_timer := st.registers n1 }, true)
      | [1, 0xE] =>
        some ({ st with index_reg := (st.index_reg + st.registers n1) % 65536 }, true)
      | [0, 0xA] =>
        if st.key_pressed then
          match st.last_key with
          | none => none
          | some k => some ({ st with registers := updFun st.registers n1 k }, true)
        else some ({ st with pc := (st.pc + 65536 - 2) % 65536 }, true)
      | [2, 9] => some ({ st with index_reg := (st.registers n1 % 16) * 5 }, true)
      | [3, 3] =>
        let number := st.registers n1
        let digit_three := number % 10
        let digit_two := (number % 100 - digit_three) / 10
        let digit_one := (number - digit_two * 10 - digit_three) / 100
        some ({ st with memory := updFun (updFun (updFun st.memory (st.index_reg % 65536) digit_one) ((st.index_reg + 1) % 65536) digit_two) ((st.index_reg + 2) % 65536) digit_three }, true)
      | [5, 5] =>
        some ({ st with
          memory := store_regs_loop st.registers st.index_reg (n1 + 1) 0 st.memory
          index_reg := if !SUPER_CHIP then (st.index_reg + n1 + 1) % 65536 else st.index_reg }, true)
      | [6, 5] =>
        some ({ st with
          registers := load_regs_loop st.memory st.index_reg (n1 + 1) 0 st.registers
          index_reg := if !SUPER_CHIP then (st.index_reg + n1 + 1) % 65536 else st.index_reg }, true)
      | _ => some (st, true)
    | _ => some (st, true)
  match arm with
  | none => none
  | some (st1, inc) =>
    let st2 := if inc then { st1 with pc := (st1.pc + 2) % 65536 } else st1
    let st3 := { st2 with key_pressed := false }
    some (st3.update_timers elapsed_secs)

/-- mirrors `update` (one `step()` of the machine): when not paused, fetch
the two bytes at `pc`, decode them into the four nibbles of `current_op`,
and run `process_op`. -/
def CHIP8.update (st : CHIP8) (elapsed_secs rnd : Nat) : Option CHIP8 :=
  if st.paused then some st
  else
    let b0 := st.memory st.pc % 256
    let b1 := st.memory (st.pc + 1) % 256
    st.process_op (b0 / 16) (b0 % 16) (b1 / 16) (b1 % 16) elapsed_secs rnd

/-! Test states used by the concrete theorems and witnesses below. -/

/-- a machine with all-zero registers, memory, timers and screen,
`pc = 512`, empty stack, not paused, no key latched. -/
def baseSt : CHIP8 :=
  { registers := fun _ => 0
    memory := fun _ => 0
    stack := []
    pc := 512
    index_reg := 0
    sound_timer := 0
    delay_timer := 0
    frame_buffer := ⟨fun _ _ => false⟩
    paused := false
    key_pressed := false
    last_key := none }

/-- memory holding one instruction (bytes `b0 b1`) at address 512. -/
def mem2 (b0 b1 : Nat) : Nat → Nat :=
  fun a => if a = 512 then b0 else if a = 513 then b1 else 0

/-- current instruction `F10A` (FX0A with X = 1), no key pending. -/
def C1st : CHIP8 := { baseSt with memory := mem2 0xF1 0x0A }

/-- current instruction `F10A`, key 5 pending. -/
def C1stKey : CHIP8 := { C1st with key_pressed := true, last_key := some 5 }

/-- current instruction `D012` (draw 2 rows at (V0, V1) = (0, 0)), sprite
rows `0x80 0x00` at the index register 768, pixel (0,0) already lit. -/
def C2st : CHIP8 := { baseSt with
  memory := fun a => if a = 512 then 0xD0 else if a = 513 then 0x12 else if a = 768 then 0x80 else 0
  index_reg := 768
  frame_buffer := ⟨fun r c => decide (r = 0 ∧ c = 0)⟩ }

/-- current instruction `5120` with V1 = 1, V2 = 2 (unequal registers). -/
def C3st : CHIP8 := { baseSt with
  memory := mem2 0x51 0x20
  registers := fun j => if j = 1 then 1 else if j = 2 then 2 else 0 }

/-- current instruction `9120` with V1 = 1, V2 = 2 (unequal registers). -/
def C4st : CHIP8 := { C3st with memory := mem2 0x91 0x20 }

/-- both timers at 50. -/
def C5st : CHIP8 := { baseSt with sound_timer := 50, delay_timer := 50 }

/-- current instruction `00EE` with an empty call stack. -/
def C6stEmpty : CHIP8 := { baseSt with memory := mem2 0x00 0xEE }

/-- current instruction `00EE` with one return address 0x300 pushed. -/
def C6stOne : CHIP8 := { C6stEmpty with stack := [0x300] }

/-- a framebuffer whose only lit pixel is (row 5, column 60). -/
def fbA : FrameBuffer := ⟨fun r c => decide (r = 5 ∧ c = 60)⟩

/-! Specification-side predicates for the framebuffer claims.  `hitCols`
characterises which columns the inner draw loop toggles when `fuel`
iterations remain starting at bit index `i`; `collide` characterises the
collision flag it reports.  `someTargetedPixelOn` is the claim C9's
right-hand side: some pixel targeted by the byte (bit on, column in
range) is currently lit. -/

/-- column `c` is toggled by the remaining iterations `i, i+1, ...`
(`fuel` of them): some in-range bit lands there. -/
def hitCols (x value : Nat) : Nat → Nat → Nat → Bool
  | 0, _, _ => false
  | fuel+1, i, c =>
    (decide (c = x + i) && decide (x + i ≤ 63) && get_bit value i) ||
      hitCols x value fuel (i+1) c

/-- the remaining iterations report a collision: some in-range lit bit
lands on a lit pixel. -/
def collide (px : Nat → Nat → Bool) (x y value : Nat) : Nat → Nat → Bool
  | 0, _ => false
  | fuel+1, i =>
    (decide (x + i ≤ 63) && get_bit value i && px y (x + i)) ||
      collide px x y value fuel (i+1)

/-- some pixel targeted by drawing `b` at `(x, y)` - a bit of `b` that is
on and whose column is in range - is currently lit in `fb`. -/
def someTargetedPixelOn (fb : FrameBuffer) (x y b : Nat) : Bool :=
  (List.range 8).any fun j => decide (x + j ≤ 63) && get_bit b j && fb.pixels y (x + j)

/-! Proofs. -/

theorem hitCols_edge (x value : Nat) :
    ∀ fuel i c, 63 < x + i → hitCols x value fuel i c = false := by
  intro fuel
  induction fuel with
  | zero => intro i c _; rfl
  | succ fuel ih =>
    intro i c h
    have h63 : ¬ (x + i ≤ 63) := by omega
    simp [hitCols, h63, ih (i+1) c (by omega)]

theorem collide_edge (px : Nat → Nat → Bool) (x y value : Nat) :
    ∀ fuel i, 63 < x + i → collide px x y value fuel i = false := by
  intro fuel
  induction fuel with
  | zero => intro i _; rfl
  | succ fuel ih =>
    intro i h
    have h63 : ¬ (x + i ≤ 63) := by omega
    simp [collide, h63, ih (i+1) (by omega)]

theorem hitCols_bounds (x value : Nat) :
    ∀ fuel i c, hitCols x value fuel i c = true → x + i ≤ c ∧ c < x + i + fuel ∧ c ≤ 63 := by
  intro fuel
  induction fuel with
  | zero => intro i c h; exact absurd h (by simp [hitCols])
  | succ fuel ih =>
    intro i c h
    simp only [hitCols, Bool.or_eq_true, Bool.and_eq_true, decide_eq_true_eq] at h
    rcases h with ⟨⟨hc, hle⟩, _⟩ | h
    · omega
    · have := ih (i+1) c h
      omega

theorem collide_flip (px : Nat → Nat → Bool) (x y value : Nat) :
    ∀ fuel i c0, c0 < x + i →
      collide (flipPixel px y c0) x y value fuel i = collide px x y value fuel i := by
  intro fuel
  induction fuel with
  | zero => intro i c0 _; rfl
  | succ fuel ih =>
    intro i c0 h
    have hne : flipPixel px y c0 y (x + i) = px y (x + i) := by
      have h2 : ¬ (x + i = c0) := by omega
      simp [flipPixel, h2]
    simp only [collide, hne, ih (i+1) c0 (by omega)]

theorem setLoop_pixels (x y value : Nat) :
    ∀ fuel i px vf r c,
      (setLoop x y value fuel i px vf).1 r c =
        if r = y ∧ hitCols x value fuel i c = true then !(px r c) else px r c := by
  intro fuel
  induction fuel with
  | zero => intro i px vf r c; simp [setLoop, hitCols]
  | succ fuel ih =>
    intro i px vf r c
    by_cases hbr : 63 < x + i
    · rw [setLoop, if_pos hbr, hitCols_edge x value (fuel+1) i c hbr]
      simp
    · have hle : x + i ≤ 63 := by omega
      rw [setLoop, if_neg hbr]
      by_cases hbit : get_bit value i = true
      · rw [if_pos hbit, ih (i+1) (flipPixel px y (x+i)) (vf || px y (x+i)) r c]
        by_cases hr : r = y
        · subst hr
          by_cases hc : c = x + i
          · subst hc
            have hno : hitCols x value fuel (i+1) (x+i) = false := by
              rcases hh : hitCols x value fuel (i+1) (x+i) with _ | _
              · rfl
              · exact absurd (hitCols_bounds x value fuel (i+1) (x+i) hh).1 (by omega)
            simp [hitCols, hno, flipPixel, hbit, hle]
          · have hflip : flipPixel px r (x+i) r c = px r c := by
              simp [flipPixel, hc]
            simp only [hitCols, hbit, Bool.and_true]
            by_cases hh : hitCols x value fuel (i+1) c = true
            · simp [hh, hflip, hc, hle]
            · simp [hh, hflip, hc, hle]
        · simp [hr, flipPixel]
      · have hbit' : get_bit value i = false := by
          rcases h : get_bit value i with _ | _
          · rfl
          · exact absurd h hbit
        rw [if_neg (by simp [hbit']), ih (i+1) px vf r c]
        simp [hitCols, hbit']

theorem setLoop_vf (x y value : Nat) :
    ∀ fuel i px vf,
      (setLoop x y value fuel i px vf).2 = (vf || collide px x y value fuel i) := by
  intro fuel
  induction fuel with
  | zero => intro i px vf; simp [setLoop, collide]
  | succ fuel ih =>
    intro i px vf
    by_cases hbr : 63 < x + i
    · rw [setLoop, if_pos hbr, collide_edge px x y value (fuel+1) i hbr]
      simp
    · have hle : x + i ≤ 63 := by omega
      rw [setLoop, if_neg hbr]
      by_cases hbit : get_bit value i = true
      · rw [if_pos hbit, ih (i+1) (flipPixel px y (x+i)) (vf || px y (x+i)),
            collide_flip px x y value fuel (i+1) (x+i) (by omega)]
        simp [collide, hbit, hle, Bool.or_assoc]
      · have hbit' : get_bit value i = false := by
          rcases h : get_bit value i with _ | _
          · rfl
          · exact absurd h hbit
        rw [if_neg (by simp [hbit']), ih (i+1) px vf]
        simp [collide, hbit']

theorem set_pixels (fb : FrameBuffer) (x y value r c : Nat) :
    ((fb.set x y value).1).pixels r c =
      if r = y ∧ hitCols x value 8 0 c = true then !(fb.pixels r c) else fb.pixels r c := by
  simpa [FrameBuffer.set] using setLoop_pixels x y value 8 0 fb.pixels false r c

theorem set_vf (fb : FrameBuffer) (x y value : Nat) :
    (fb.set x y value).2 = collide fb.pixels x y value 8 0 := by
  simpa [FrameBuffer.set] using setLoop_vf x y value 8 0 fb.pixels false

theorem collide_eq_someTargeted (px : Nat → Nat → Bool) (x y value : Nat) :
    collide px x y value 8 0 = someTargetedPixelOn ⟨px⟩ x y value := by
  rfl

theorem setLoop_zero (x y : Nat) :
    ∀ fuel i px vf, setLoop x y 0 fuel i px vf = (px, vf) := by
  intro fuel
  induction fuel with
  | zero => intro i px vf; rfl
  | succ fuel ih =>
    intro i px vf
    rw [setLoop]
    by_cases hbr : 63 < x + i
    · rw [if_pos hbr]
    · rw [if_neg hbr]
      have : get_bit 0 i = false := by simp [get_bit]
      rw [if_neg (by simp [this]), ih]

theorem set_zero (fb : FrameBuffer) (x y : Nat) :
    fb.set x y 0 = (fb, false) := by
  rw [FrameBuffer.set, setLoop_zero x y 8 0 fb.pixels false]

/-- C8: for x in [0,63], y in [0,31] and any byte b, `FrameBuffer::set`
(drawByte) leaves every pixel outside row y, columns x..min(x+7,63),
unchanged: clipped columns (at or beyond 64) are untouched and nothing
wraps to column 0. -/
theorem C8_set_clips (fb : FrameBuffer) (x y b r c : Nat)
    (hx : x ≤ 63) (hy : y ≤ 31)
    (h : r ≠ y ∨ c < x ∨ min (x + 7) 63 < c) :
    ((fb.set x y b).1).pixels r c = fb.pixels r c := by
  rw [set_pixels]
  rcases hcond : hitCols x b 8 0 c with _ | _
  · simp [hcond]
  · have hb := hitCols_bounds x b 8 0 c hcond
    rcases h with h | h | h
    · simp [h, hcond]
    · omega
    · omega

theorem C8_set_clips_witness :
    ((fbA.set 60 5 255).1).pixels 5 59 = fbA.pixels 5 59 :=
  C8_set_clips fbA 60 5 255 5 59 (by decide) (by decide) (Or.inr (Or.inl (by decide)))

/-- C9: drawing the same byte twice at the same (x, y) restores every
pixel to its value before the first draw, and the second draw reports a
collision exactly when the first draw left some targeted pixel lit. -/
theorem C9_double_xor (fb : FrameBuffer) (x y b r c : Nat)
    (hx : x ≤ 63) (hy : y ≤ 31) :
    (((fb.set x y b).1.set x y b).1).pixels r c = fb.pixels r c ∧
    ((fb.set x y b).1.set x y b).2 = someTargetedPixelOn (fb.set x y b).1 x y b := by
  constructor
  · rw [set_pixels, set_pixels]
    by_cases hcond : r = y ∧ hitCols x b 8 0 c = true
    · simp [hcond]
    · simp [hcond]
  · rw [set_vf, collide_eq_someTargeted]

theorem C9_double_xor_witness :
    (((fbA.set 60 5 0x80).1.set 60 5 0x80).1).pixels 5 60 = fbA.pixels 5 60 ∧
    ((fbA.set 60 5 0x80).1.set 60 5 0x80).2 =
      someTargetedPixelOn (fbA.set 60 5 0x80).1 60 5 0x80 :=
  C9_double_xor fbA 60 5 0x80 5 60 (by decide) (by decide)

/-- C10: drawing the zero byte reports no collision and changes nothing,
and a draw only ever toggles pixels at positions some lit source bit
lands on (row y, an in-range hit column). -/
theorem C10_zero_draw (fb : FrameBuffer) (x y b r c : Nat)
    (hx : x ≤ 63) (hy : y ≤ 31)
    (h : r ≠ y ∨ hitCols x b 8 0 c = false) :
    fb.set x y 0 = (fb, false) ∧ ((fb.set x y b).1).pixels r c = fb.pixels r c := by
  refine ⟨set_zero fb x y, ?_⟩
  rw [set_pixels]
  rcases h with h | h
  · simp [h]
  · simp [h]

theorem C10_zero_draw_witness :
    fbA.set 60 5 0 = (fbA, false) ∧
    ((fbA.set 60 5 255).1).pixels 5 59 = fbA.pixels 5 59 :=
  C10_zero_draw fbA 60 5 255 5 59 (by decide) (by decide) (Or.inr (by decide))

/-- C1: the claim fails on the code.  `chars[2..3]` is a one-element
slice, so no two-element pattern of the `F` dispatch ever matches and
`FX0A` is a no-op.  With no key pending, one step of `F10A` advances pc
512 → 514 (the claim says pc is unchanged); with key 5 pending, register
1 is left at 0 (the claim says it receives the key) while pc still
advances and the pending flag is cleared by the generic end-of-step
clearing. -/
theorem C1_fx0a_is_dead :
    (C1st.update 0 0).map CHIP8.pc = some 514 ∧
    (C1stKey.update 0 0).map (fun m => (m.pc, m.registers 1, m.key_pressed)) =
      some (514, 0, false) := by
  constructor
  · rfl
  · rfl

/-- C2: the claim fails on the code.  In state `C2st` the first sprite row
(byte 0x80 at (0,0)) collides - its `set` call returns true - but
`vf_flip` is overwritten by the second row's result (byte 0x00, no
collision), so after `D012` the flag register is 0, not 1. -/
theorem C2_flag_is_last_row :
    (C2st.frame_buffer.set 0 0 0x80).2 = true ∧
    (C2st.update 0 0).map (fun m => m.registers 15) = some 0 := by
  constructor
  · rfl
  · rfl

/-- C3: the claim fails on the code.  Line 273 compares `registers[X]`
with itself, so `5XY0` always skips: with V1 = 1 ≠ 2 = V2, executing
`5120` still skips (pc 512 → 516, instead of the claimed 514). -/
theorem C3_5xy0_always_skips :
    C3st.registers 1 = 1 ∧ C3st.registers 2 = 2 ∧
    (C3st.update 0 0).map CHIP8.pc = some 516 := by
  refine ⟨rfl, rfl, rfl⟩

/-- C4: the claim fails on the code.  Line 370 compares `registers[X]`
with itself, so `9XY0` never skips: with V1 = 1 ≠ 2 = V2, executing
`9120` does not skip (pc 512 → 514, instead of the claimed 516). -/
theorem C4_9xy0_never_skips :
    C4st.registers 1 = 1 ∧ C4st.registers 2 = 2 ∧
    (C4st.update 0 0).map CHIP8.pc = some 514 := by
  refine ⟨rfl, rfl, rfl⟩

/-- C5: the claim fails on the code.  With both timers at 50 and one
elapsed second, delta = 60 and the guard `255 - 50 ≥ 60` holds, so the
release-mode `timer -= delta` wraps: both timers become 246 instead of
the claimed max(50 - 60, 0) = 0 (a debug build would abort instead). -/
theorem C5_timers_wrap :
    (C5st.update_timers 1).sound_timer = 246 ∧
    (C5st.update_timers 1).delay_timer = 246 := by
  constructor
  · rfl
  · rfl

/-- C6 counterexample: the claim says `00EE` on an empty stack is a typed
failure surfaced to the host without a panic; but stepping `C6stEmpty`
(instruction 00EE, empty stack) hits the `stack[len - 1]` index underflow,
i.e. the Rust process aborts - modelled as `none`, with no fault value
ever returned. -/
theorem C6_empty_stack_aborts :
    C6stEmpty.update 0 0 = none := by
  rfl

/-- C6 amended: `00EE` with an empty call stack makes the whole step abort
(a Rust panic, modelled `none`), not a typed recoverable fault; with a
non-empty stack `return_from_subroutine` pops the top return address into
pc (and the step's auto-advance then adds 2). -/
theorem C6_return_semantics (st : CHIP8) (e r : Nat)
    (hp : st.paused = false)
    (h0 : st.memory st.pc % 256 = 0x00)
    (h1 : st.memory (st.pc + 1) % 256 = 0xEE) :
    (st.stack = [] → st.update e r = none) ∧
    (st.stack ≠ [] →
      (st.update e r).map CHIP8.pc = some ((st.stack.getLastD 0 + 2) % 65536)) := by
  have hupd : st.update e r =
      match return_from_subroutine st with
      | none => none
      | some st1 =>
        some ((({ st1 with pc := (st1.pc + 2) % 65536, key_pressed := false }).update_timers e)) := by
    rw [CHIP8.update, if_neg (by simp [hp]), h0, h1]
    norm_num [CHIP8.process_op]
    rcases hst : return_from_subroutine st with _ | st1
    · rfl
    · rfl
  constructor
  · intro hemp
    rw [hupd, return_from_subroutine, hemp]
    rfl
  · intro hne
    obtain ⟨top, htop⟩ : ∃ top, st.stack.getLast? = some top := by
      rcases h : st.stack.getLast? with _ | top
      · exact absurd (List.getLast?_eq_none_iff.mp h) hne
      · exact ⟨top, rfl⟩
    rw [hupd, return_from_subroutine, htop]
    have hd : st.stack.getLastD 0 = top := by
      rw [List.getLastD_eq_getLast?, htop]
      rfl
    simp [CHIP8.update_timers, hd, htop]

theorem C6_return_semantics_witness :
    (C6stEmpty.update 0 0 = none) ∧
    ((C6stOne.update 0 0).map CHIP8.pc = some 770) := by
  constructor
  · exact (C6_return_semantics C6stEmpty 0 0 rfl (by decide) (by decide)).1 rfl
  · have h := (C6_return_semantics C6stOne 0 0 rfl (by decide) (by decide)).2 (by decide)
    simpa using h

/-- C7 counterexample: the claim says the call stack is empty right after
creation; but `CHIP8::new` builds it as `vec![0; 32]`, thirty-two zero
entries. -/
theorem C7_stack_not_empty :
    (CHIP8.new []).stack = List.replicate 32 0 ∧ (CHIP8.new []).stack ≠ [] := by
  constructor
  · rfl
  · decide

/-- C7 amended: immediately after creation the stack holds 32 zero
entries, so the first `00EE` executed before any `2NNN` pops a zero into
pc (no empty-stack pop occurs). -/
theorem C7_initial_stack (program : List Nat) :
    (CHIP8.new program).stack = List.replicate 32 0 ∧
    return_from_subroutine (CHIP8.new program) =
      some { CHIP8.new program with pc := 0, stack := List.replicate 31 0 } := by
  constructor
  · rfl
  · rfl

theorem C7_initial_stack_witness :
    (CHIP8.new []).stack = List.replicate 32 0 ∧
    return_from_subroutine (CHIP8.new []) =
      some { CHIP8.new [] with pc := 0, stack := List.replicate 31 0 } :=
  C7_initial_stack []
